import Mathlib

/-!
Verification of the flashrom `atapromise` parallel programmer (Promise
PDC2026x ATA controllers) against its natural-language specification.

The driver is shallowly embedded: machine integers are `Nat` with explicit
`% 2 ^ 32` (resp. `% 2 ^ 16`) where C truncation occurs, port writes become
explicit trace lists, and the module-static latches (`once`,
`program_cmd_idx`) become explicitly threaded state.
-/

set_option linter.unusedVariables false

/-- Constant `MAX_ROM_DECODE` from atapromise.c (`32 * 1024`). -/
def MAX_ROM_DECODE : Nat := 32 * 1024

/-- Constant `ADDR_MASK` from atapromise.c (`MAX_ROM_DECODE - 1`); the same
constant is `PROMISE_ADDR_MASK` in the revision in part_002. -/
def ADDR_MASK : Nat := MAX_ROM_DECODE - 1

/-- Embedding of `atapromise_chip_writeb` (atapromise.c lines 240-248): the
list of (port, 32-bit value) port writes the call issues.  The C computes
`data = (rom_base_addr + (addr & ADDR_MASK)) << 8 | val` (truncated to
`uint32_t` on assignment) and performs the single call
`OUTL(data, io_base_addr + 0x14)`.  The preceding `atapromise_fixup_chip`
call is modelled separately (`atapromise_fixup_chip`). -/
def atapromise_chip_writeb (rom_base_addr io_base_addr val addr : Nat) :
    List (Nat × Nat) :=
  [((io_base_addr + 0x14) % 2 ^ 32,
    ((rom_base_addr + (addr &&& ADDR_MASK)) <<< 8 ||| val) % 2 ^ 32)]

/-- Modelled from the spec's words (refinement target for claim C1): the
transport word `(rom_base + effective_addr) << 8 | val` with
`effective_addr = addr & (decode_window - 1)`, where `decode_window` is the
decode window in effect for the session. -/
def spec_transport_word (decode_window rom_base addr val : Nat) : Nat :=
  ((rom_base + (addr &&& (decode_window - 1))) <<< 8 ||| val) % 2 ^ 32

/-- Bridge memory-window registers (`PCI_MEMORY_BASE`, `PCI_MEMORY_LIMIT`)
read from the bridge's configuration space; 16-bit values. -/
structure bridge_state where
  memory_base : Nat
  memory_limit : Nat
deriving Repr, DecidableEq

/-- Embedding of `atapromise_fixup_bridge` (atapromise.c lines 108-132) for
the case that a bridge was found.  `bar5_hi` is
`pci_read_word(dev, PCI_BASE_ADDRESS_5 + 2)`, the high word of the
controller's ROM BAR.  `reg16` is a C `uint16_t`, so the increment by
`MAX_ROM_DECODE / 1024 = 0x20` is taken mod `2 ^ 16`. -/
def atapromise_fixup_bridge (bar5_hi : Nat) (br : bridge_state) :
    bridge_state :=
  let reg16 := bar5_hi &&& 0xfff0
  let br1 := if reg16 < br.memory_base then
      { br with memory_base := reg16 } else br
  let reg16b := (reg16 + MAX_ROM_DECODE / 1024) % 2 ^ 16
  if reg16b < br1.memory_limit then
    { br1 with memory_limit := reg16b } else br1

/-- Embedding of the `switch (program_cmd_idx)` unlock-sequence tracker in
`atapromise_chip_writeb` (part_002 lines 308-329, part_000 lines 286-307).
Returns the new `program_cmd_idx` and the `is_data` flag.  Note that in
states 1 and 2 the C code executes `program_cmd_idx += cond ? 1 : 0`, so a
non-matching write leaves the index unchanged. -/
def atapromise_unlock_step (program_cmd_idx addr val : Nat) : Nat × Bool :=
  match program_cmd_idx with
  | 0 => (if addr = 0x555 ∧ val = 0xaa then 1 else 0, false)
  | 1 => (if addr = 0x2aa ∧ val = 0x55 then 2 else 1, false)
  | 2 => (if addr = 0x555 ∧ val = 0xa0 then 3 else 2, false)
  | 3 => (0, true)
  | _ + 4 => (0, false)

/-- Folding the tracker over a list of (addr, val) writes, returning the
final `program_cmd_idx`. -/
def atapromise_unlock_run (idx : Nat) (ws : List (Nat × Nat)) : Nat :=
  ws.foldl (fun i w => (atapromise_unlock_step i w.1 w.2).1) idx

theorem land_mask_of_lt {a n : Nat} (h : a < 2 ^ n) : a &&& (2 ^ n - 1) = a :=
  Nat.and_pow_two_sub_one_of_lt_two_pow h

/-- One entry of a `block_eraser`'s `eraseblocks` array.  The driver only ever
touches `eraseblocks[0]`, so only that entry is modelled. -/
structure eraseblock where
  size : Nat
  count : Nat
deriving Repr, DecidableEq

/-- One entry of `chip->block_erasers`.  `has_erase_fn` models whether the
`block_erase` function pointer is non-NULL. -/
structure block_eraser where
  eraseblocks0 : eraseblock
  has_erase_fn : Bool
deriving Repr, DecidableEq

/-- The fields of `struct flashchip` touched by `atapromise_fixup_chip`.
`total_size` is in KiB, as in flashrom.  The `block_erasers` array (length
`NUM_ERASEFUNCTIONS` in C) is modelled as a list. -/
structure flashchip where
  total_size : Nat
  page_size : Nat
  block_erasers : List block_eraser
deriving Repr, DecidableEq

/-- The effect of the non-matching branch of the fixup loop on one eraser:
`eraseblocks[0].count = 0; block_erase = NULL`. -/
def disable_eraser (be : block_eraser) : block_eraser :=
  { be with eraseblocks0 := { be.eraseblocks0 with count := 0 },
            has_erase_fn := false }

/-- Embedding of the `for (i = 0; i < NUM_ERASEFUNCTIONS; ++i)` loop of
`atapromise_fixup_chip` (atapromise.c lines 148-156): erasers whose
`eraseblocks[0].size` differs from `size` are disabled; the first one whose
size matches has its `eraseblocks[0].size` set to `rom_size` and the loop
breaks.  The boolean result is `i != NUM_ERASEFUNCTIONS`, i.e. whether a
full-chip eraser was found. -/
def atapromise_fixup_erasers (size rom_size : Nat) :
    List block_eraser → List block_eraser × Bool
  | [] => ([], false)
  | be :: rest =>
    if be.eraseblocks0.size ≠ size then
      let r := atapromise_fixup_erasers size rom_size rest
      (disable_eraser be :: r.1, r.2)
    else
      ({ be with eraseblocks0 := { be.eraseblocks0 with size := rom_size } }
        :: rest, true)

/-- Embedding of the body of `atapromise_fixup_chip` (atapromise.c lines
142-166), i.e. everything after the `once` guard.  `size` is a C
`unsigned int`, hence the `% 2 ^ 32`.  When a full-chip eraser was found,
`total_size` becomes `rom_size / 1024` and `page_size` is clamped to
`rom_size`; otherwise only the (all disabled) erasers are written back and a
warning is printed. -/
def atapromise_fixup_chip_body (rom_size : Nat) (chip : flashchip) :
    flashchip :=
  let size := chip.total_size * 1024 % 2 ^ 32
  if size > rom_size then
    let r := atapromise_fixup_erasers size rom_size chip.block_erasers
    if r.2 then
      { chip with block_erasers := r.1,
                  total_size := rom_size / 1024,
                  page_size := if chip.page_size > rom_size then rom_size
                               else chip.page_size }
    else
      { chip with block_erasers := r.1 }
  else
    chip

/-- Embedding of `atapromise_fixup_chip` (atapromise.c lines 134-169) with
the `static bool once` latch made explicit: the state is
(once, referenced chip descriptor). -/
def atapromise_fixup_chip (rom_size : Nat) (st : Bool × flashchip) :
    Bool × flashchip :=
  if st.1 then st else (true, atapromise_fixup_chip_body rom_size st.2)

/-- Classification step of the geometry probe in part_000 (lines 199-205):
`rb_lo` is the word read back from config offset 0x30, `rb_hi` the word read
back from offset 0x32; the result is `maplen` in KiB. -/
def atapromise_classify (rb_lo rb_hi : Nat) : Nat :=
  if rb_lo &&& 0xc000 ≠ 0 then 16
  else if rb_hi &&& 1 ≠ 0 then 64 else 128

/-- Classification step of the geometry probe in part_001 (lines 117-122):
`romaddr` is the long read back from `PCI_ROM_ADDRESS`. -/
def atapromise_classify_001 (romaddr : Nat) : Nat :=
  if romaddr &&& 0xc000 ≠ 0 then 16
  else if romaddr &&& 0x10000 ≠ 0 then 128 else 64

/-- A 16-bit config write to the low word of a 32-bit register. -/
def pci_write_word_lo (reg v : Nat) : Nat := reg / 2 ^ 16 * 2 ^ 16 + v % 2 ^ 16

/-- A 16-bit config write to the high word of a 32-bit register. -/
def pci_write_word_hi (reg v : Nat) : Nat := reg % 2 ^ 16 + v % 2 ^ 16 * 2 ^ 16

/-- Embedding of the geometry probe of part_000's `atapromise_init` (lines
195-209).  `reg0` is the value stored in the controller's ROM-address
register (config offset 0x30) before the probe; `rb_lo` and `rb_hi` are the
hardware-dependent readbacks of offsets 0x30 and 0x32 after the probe writes
(BAR size bits need not read back as stored).  Returns `maplen` in KiB and
the value the register holds after the probe: the code saves
`pci_read_long(dev, 0x30)`, writes the probe pattern, classifies, and ends
with `pci_write_long(dev, 0x30, saved)` on its single path. -/
def atapromise_probe (reg0 rb_lo rb_hi : Nat) : Nat × Nat :=
  let saved := reg0 % 2 ^ 32
  let reg1 := pci_write_word_lo (reg0 % 2 ^ 32) 0xc000
  let reg2 := pci_write_word_hi reg1 3
  let maplen := atapromise_classify rb_lo rb_hi
  (maplen, saved % 2 ^ 32)

/-- Embedding of the geometry probe of part_001's `atapromise_init` (lines
115-124): the code writes the probe pattern `0x0003c000` to
`PCI_ROM_ADDRESS`, classifies the readback `romaddr_rb`, and never writes the
register again, so the probe pattern is left in the register. -/
def atapromise_probe_001 (reg0 romaddr_rb : Nat) : Nat × Nat :=
  let reg1 := 0x0003c000 % 2 ^ 32
  let maplen := atapromise_classify_001 romaddr_rb
  (maplen, reg1)

/-- Embedding of `atapromise_allow32k` (atapromise.c lines 171-184).  The
argument is `extract_programmer_param("allow32k")`: `none` when the parameter
is absent, otherwise the characters of the returned C string.  The C code
tests `p[0] == '1' || p[0] == 'y' || p[0] == 'Y'`; an empty string has
`p[0] == '\0'`. -/
def atapromise_allow32k (p : Option (List Char)) : Bool :=
  match p with
  | none => false
  | some [] => false
  | some (c :: _) => c = '1' || c = 'y' || c = 'Y'

/-- Environment of one `atapromise_init` call (atapromise.c lines 186-238):
outcomes of the external calls it makes, in program order. -/
structure init_env where
  io_perms_ok : Bool
  dev_found : Bool
  bar4 : Nat
  bar5 : Nat
  dev_rom_size : Nat
  allow32k_param : Option (List Char)
  physmap_ok : Bool
deriving Repr, DecidableEq

/-- Embedding of `atapromise_init` (atapromise.c lines 186-238): returns the
C return value and, when a session is established (`register_par_master`
reached), the session's `rom_size`.  `atapromise_fixup_bridge` always
returns 0 in this revision, so it cannot fail the init. -/
def atapromise_init (e : init_env) : Nat × Option Nat :=
  if !e.io_perms_ok then (1, none)
  else if !e.dev_found then (1, none)
  else
    let io_base_addr := e.bar4 &&& 0xfffe
    if io_base_addr = 0 then (1, none)
    else if e.bar5 = 0 then (1, none)
    else if atapromise_allow32k e.allow32k_param then
      if e.dev_rom_size < 32 * 1024 then (1, none)
      else if !e.physmap_ok then (1, none)
      else (0, some (32 * 1024))
    else
      if !e.physmap_ok then (1, none)
      else (0, some (16 * 1024))

/-- C1 counterexample: with the default session decode window of 16384 bytes
and `addr = 16384`, the port write issued by `atapromise_chip_writeb` does not
carry the claimed value `(rom_base + (addr & (decode_window - 1))) << 8 | val`:
the code masks with the fixed constant `ADDR_MASK = 0x7fff` instead. -/
theorem atapromise_chip_writeb_cex :
    atapromise_chip_writeb 0x1000 0xa000 0 16384 ≠
      [((0xa000 + 0x14) % 2 ^ 32, spec_transport_word 16384 0x1000 16384 0)] := by
  decide

/-- C1 (amended): every `atapromise_chip_writeb` call issues exactly one
32-bit port write, to port `io_base_addr + 0x14`, whose value is
`(rom_base + (addr & ADDR_MASK)) << 8 | val` with the fixed mask
`ADDR_MASK = 0x7fff`; for every in-window address (`addr < decode_window`,
with the decode window 16384 or 32768) this coincides with the spec's
formula `(rom_base + (addr & (decode_window - 1))) << 8 | val`. -/
theorem atapromise_chip_writeb_spec (dw rom_base io_base val addr : Nat)
    (hdw : dw = 16384 ∨ dw = 32768) (haddr : addr < dw) :
    atapromise_chip_writeb rom_base io_base val addr =
      [((io_base + 0x14) % 2 ^ 32, spec_transport_word dw rom_base addr val)] := by
  have hmask : addr &&& ADDR_MASK = addr &&& (dw - 1) := by
    rcases hdw with h | h <;> subst h
    · have h1 : addr &&& (2 ^ 15 - 1) = addr := land_mask_of_lt (by omega)
      have h2 : addr &&& (2 ^ 14 - 1) = addr := land_mask_of_lt (by omega)
      show addr &&& ADDR_MASK = addr &&& (16384 - 1)
      have e1 : ADDR_MASK = 2 ^ 15 - 1 := by decide
      have e2 : (16384 - 1 : Nat) = 2 ^ 14 - 1 := by decide
      rw [e1, e2, h1, h2]
    · have e1 : ADDR_MASK = (32768 - 1 : Nat) := by decide
      rw [e1]
  unfold atapromise_chip_writeb spec_transport_word
  rw [hmask]

theorem atapromise_chip_writeb_spec_witness :
    atapromise_chip_writeb 0x1000 0xa000 0x55 0x123 =
      [((0xa000 + 0x14) % 2 ^ 32, spec_transport_word 16384 0x1000 0x123 0x55)] :=
  atapromise_chip_writeb_spec 16384 0x1000 0xa000 0x55 0x123 (Or.inl rfl)
    (by decide)

/-- C2 counterexample: a descriptor whose full-chip region (size 131072)
precedes a sector region in the eraser list.  After the one-time adjustment
with decode window 16384, `total_size` and the full-chip region are adjusted
as claimed, but the sector region that follows the full-chip entry keeps its
nonzero count (the scan breaks at the first full-chip eraser), refuting
"every other erase region has count 0". -/
theorem atapromise_fixup_chip_cex :
    (atapromise_fixup_chip 16384
        (false, ⟨128, 256, [⟨⟨131072, 1⟩, true⟩, ⟨⟨4096, 32⟩, true⟩]⟩)).2 =
      ⟨16, 256, [⟨⟨16384, 1⟩, true⟩, ⟨⟨4096, 32⟩, true⟩]⟩ ∧
    ¬ (∀ e ∈ (atapromise_fixup_chip 16384
        (false, ⟨128, 256, [⟨⟨131072, 1⟩, true⟩, ⟨⟨4096, 32⟩, true⟩]⟩)).2.block_erasers,
        e.eraseblocks0.size = 16384 ∨ e.eraseblocks0.count = 0) := by
  decide

theorem atapromise_fixup_erasers_append (size rom_size : Nat)
    (pre post : List block_eraser) (be : block_eraser)
    (hpre : ∀ e ∈ pre, e.eraseblocks0.size ≠ size)
    (hbe : be.eraseblocks0.size = size) :
    atapromise_fixup_erasers size rom_size (pre ++ be :: post) =
      (pre.map disable_eraser ++
        { be with eraseblocks0 := { be.eraseblocks0 with size := rom_size } }
          :: post, true) := by
  induction pre with
  | nil => simp [atapromise_fixup_erasers, hbe]
  | cons e pre ih =>
    have he : e.eraseblocks0.size ≠ size := hpre e (List.mem_cons_self _ _)
    have ih' := ih (fun x hx => hpre x (List.mem_cons_of_mem _ hx))
    simp only [List.cons_append, atapromise_fixup_erasers, if_pos he,
      List.append_eq, ih', List.map_cons]

/-- C2 (amended): given decode window 16384 and a descriptor with
`total_size = 128` KiB (131072 bytes) whose eraser list is
`pre ++ full :: post` with `full` the only full-chip region among `pre` and
`full`, the one-time adjustment sets `total_size` to 16 KiB (16384 bytes),
rewrites the full-chip region's size to 16384, clamps the page size, zeroes
the count of every region preceding the full-chip region, and leaves regions
after it unchanged (the scan stops at the first full-chip eraser). -/
theorem atapromise_fixup_chip_16k (ps cnt : Nat) (fe : Bool)
    (pre post : List block_eraser)
    (hpre : ∀ e ∈ pre, e.eraseblocks0.size ≠ 131072) :
    (atapromise_fixup_chip 16384
        (false, ⟨128, ps, pre ++ ⟨⟨131072, cnt⟩, fe⟩ :: post⟩)).2 =
      ⟨16, if ps > 16384 then 16384 else ps,
        pre.map disable_eraser ++ ⟨⟨16384, cnt⟩, fe⟩ :: post⟩ ∧
    ∀ e ∈ pre.map disable_eraser, e.eraseblocks0.count = 0 := by
  constructor
  · have hloop := atapromise_fixup_erasers_append 131072 16384 pre post
      ⟨⟨131072, cnt⟩, fe⟩ hpre rfl
    unfold atapromise_fixup_chip atapromise_fixup_chip_body
    simp only [show ((128 * 1024 : Nat) % 2 ^ 32 > 16384) = True by simp]
    simp [hloop]
  · intro e he
    rcases List.mem_map.mp he with ⟨a, _, rfl⟩
    rfl

theorem atapromise_fixup_chip_16k_witness :
    (atapromise_fixup_chip 16384
        (false, ⟨128, 256, [⟨⟨4096, 32⟩, true⟩] ++ ⟨⟨131072, 1⟩, true⟩ :: []⟩)).2 =
      ⟨16, if 256 > 16384 then 16384 else 256,
        [⟨⟨4096, 32⟩, true⟩].map disable_eraser ++ ⟨⟨16384, 1⟩, true⟩ :: []⟩ ∧
    ∀ e ∈ [⟨⟨4096, 32⟩, true⟩].map disable_eraser, e.eraseblocks0.count = 0 :=
  atapromise_fixup_chip_16k 256 1 true [⟨⟨4096, 32⟩, true⟩] [] (by decide)

/-- C3: evaluation of `atapromise_fixup_bridge` at a bridge whose
memory-limit register already exceeds what the ROM window needs (ROM BAR
high word 0xe000, bridge base 0x8000, bridge limit 0xfff0).  The guard
`reg16 < pci_read_word(br, PCI_MEMORY_LIMIT)` makes the call overwrite the
limit with the lower value 0xe020, so the memory-limit register is lowered
by the call, contradicting the claimed monotonic widening (and an
insufficient limit, one below `reg16 + 0x20`, is never raised at all). -/
theorem atapromise_fixup_bridge_lowers_limit :
    (atapromise_fixup_bridge 0xe000 ⟨0x8000, 0xfff0⟩).memory_limit = 0xe020 ∧
    0xe020 < 0xfff0 := by
  decide

/-- C4 counterexample: after a matching step 1 (`(0x555, 0xaa)`), the
non-matching write `(0x111, 0x22)` leaves `program_cmd_idx` at 1; the claim
predicts a reset to Idle (index 0) with the write re-evaluated as a possible
new step 1 (which `(0x111, 0x22)` is not). -/
theorem atapromise_unlock_step_cex :
    atapromise_unlock_run 0 [(0x555, 0xaa), (0x111, 0x22)] ≠ 0 := by
  decide

/-- C4 (amended): feeding `(0x555,0xAA), (0x2AA,0x55), (0x555,0xA0)` drives
`program_cmd_idx` from 0 to 3 and the fourth write is flagged as the data
phase (with the index returning to 0); but a write that does not match the
next expected pair while the index is 1 or 2 leaves the index unchanged
rather than resetting it to Idle. -/
theorem atapromise_unlock_tracker (a v : Nat) :
    atapromise_unlock_run 0 [(0x555, 0xaa), (0x2aa, 0x55), (0x555, 0xa0)] = 3 ∧
    atapromise_unlock_step 3 a v = (0, true) ∧
    (∀ x y, ¬(x = 0x2aa ∧ y = 0x55) → atapromise_unlock_step 1 x y = (1, false)) ∧
    (∀ x y, ¬(x = 0x555 ∧ y = 0xa0) → atapromise_unlock_step 2 x y = (2, false)) := by
  refine ⟨by decide, rfl, ?_, ?_⟩
  · intro x y h
    simp only [atapromise_unlock_step, if_neg h]
  · intro x y h
    simp only [atapromise_unlock_step, if_neg h]

theorem atapromise_unlock_tracker_witness :
    atapromise_unlock_step 3 0x100 0xff = (0, true) ∧
    atapromise_unlock_step 1 0x111 0x22 = (1, false) :=
  ⟨(atapromise_unlock_tracker 0x100 0xff).2.1,
   (atapromise_unlock_tracker 0 0).2.2.1 0x111 0x22 (by decide)⟩

/-- C5 counterexample: the probe of the part_001 revision writes the probe
pattern `0x0003c000` to the ROM-address register and never restores it, so
after the probe the register does not hold its prior value. -/
theorem atapromise_probe_001_cex :
    (atapromise_probe_001 0x12345678 0).2 ≠ 0x12345678 := by
  decide

/-- C5 (amended): the probe of the part_000 revision (the one that snapshots
the register) restores the controller's ROM-address register to its prior
value on every execution path, whatever the two hardware readbacks are; the
earlier part_001 revision instead leaves the probe pattern in the register
(see the counterexample). -/
theorem atapromise_probe_restores (reg0 rb_lo rb_hi : Nat)
    (h : reg0 < 2 ^ 32) :
    (atapromise_probe reg0 rb_lo rb_hi).2 = reg0 := by
  have h' : reg0 < 4294967296 := by simpa using h
  unfold atapromise_probe
  simp [Nat.mod_eq_of_lt h']

theorem atapromise_probe_restores_witness :
    (atapromise_probe 0xdeadbeef 0xc000 1).2 = 0xdeadbeef :=
  atapromise_probe_restores 0xdeadbeef 0xc000 1 (by decide)

/-- C6: the descriptor adjustment is idempotent within a session: for every
decode window and every (latch, descriptor) state, invoking
`atapromise_fixup_chip` twice (from the read path, the write path, or both
-- both paths call the same function) yields exactly the same state as
invoking it once, because the `static bool once` latch is set by the first
invocation. -/
theorem atapromise_fixup_chip_idem (rom_size : Nat) (st : Bool × flashchip) :
    atapromise_fixup_chip rom_size (atapromise_fixup_chip rom_size st) =
      atapromise_fixup_chip rom_size st := by
  unfold atapromise_fixup_chip
  by_cases h : st.1 <;> simp [h]

/-- C7: for every chip descriptor whose total declared size in bytes
(`total_size * 1024`) is at most the decode window, the adjustment leaves
every field of the descriptor bit-for-bit unchanged (the `size > rom_size`
guard fails), both for the body and through the one-shot latch. -/
theorem atapromise_fixup_chip_small (rom_size : Nat) (chip : flashchip)
    (h : chip.total_size * 1024 ≤ rom_size) :
    atapromise_fixup_chip_body rom_size chip = chip ∧
    atapromise_fixup_chip rom_size (false, chip) = (true, chip) := by
  have hle : chip.total_size * 1024 % 2 ^ 32 ≤ rom_size :=
    le_trans (Nat.mod_le _ _) h
  have hbody : atapromise_fixup_chip_body rom_size chip = chip := by
    unfold atapromise_fixup_chip_body
    rw [if_neg (by omega)]
  exact ⟨hbody, by unfold atapromise_fixup_chip; simp [hbody]⟩

theorem atapromise_fixup_chip_small_witness :
    atapromise_fixup_chip_body 16384 ⟨16, 256, [⟨⟨16384, 1⟩, true⟩]⟩ =
      ⟨16, 256, [⟨⟨16384, 1⟩, true⟩]⟩ ∧
    atapromise_fixup_chip 16384 (false, ⟨16, 256, [⟨⟨16384, 1⟩, true⟩]⟩) =
      (true, ⟨16, 256, [⟨⟨16384, 1⟩, true⟩]⟩) :=
  atapromise_fixup_chip_small 16384 ⟨16, 256, [⟨⟨16384, 1⟩, true⟩]⟩ (by decide)

/-- C8: in both probe revisions, a readback with any bit of the small-tier
mask 0xc000 set classifies as the 16 KiB tier regardless of all other bits;
with that mask clear, the choice between the two larger tiers depends only on
the documented secondary bit (bit 0 of the second word read in part_000,
bit 16 of the long readback in part_001). -/
theorem atapromise_classify_tiers :
    (∀ lo hi, lo &&& 0xc000 ≠ 0 → atapromise_classify lo hi = 16) ∧
    (∀ lo lo' hi hi', lo &&& 0xc000 = 0 → lo' &&& 0xc000 = 0 →
      hi &&& 1 = hi' &&& 1 →
      atapromise_classify lo hi = atapromise_classify lo' hi') ∧
    (∀ v, v &&& 0xc000 ≠ 0 → atapromise_classify_001 v = 16) ∧
    (∀ v w, v &&& 0xc000 = 0 → w &&& 0xc000 = 0 →
      v &&& 0x10000 = w &&& 0x10000 →
      atapromise_classify_001 v = atapromise_classify_001 w) := by
  refine ⟨?_, ?_, ?_, ?_⟩
  · intro lo hi h
    simp [atapromise_classify, h]
  · intro lo lo' hi hi' h1 h2 h3
    simp only [atapromise_classify, h1, h2, h3, ne_eq, not_true_eq_false,
      if_false]
  · intro v h
    simp [atapromise_classify_001, h]
  · intro v w h1 h2 h3
    simp only [atapromise_classify_001, h1, h2, h3, ne_eq, not_true_eq_false,
      if_false]

theorem atapromise_classify_tiers_witness :
    atapromise_classify 0x4000 0 = 16 ∧
    atapromise_classify 0 5 = atapromise_classify 0x3fff 1 ∧
    atapromise_classify_001 0x1c000 = 16 ∧
    atapromise_classify_001 0x10000 = atapromise_classify_001 0x13fff :=
  ⟨atapromise_classify_tiers.1 0x4000 0 (by decide),
   atapromise_classify_tiers.2.1 0 0x3fff 5 1 (by decide) (by decide) (by decide),
   atapromise_classify_tiers.2.2.1 0x1c000 (by decide),
   atapromise_classify_tiers.2.2.2 0x10000 0x13fff (by decide) (by decide)
     (by decide)⟩

/-- C9: initialization fails with return value 1 and establishes no session
whenever the I/O-port BAR reads as zero after its low space-indicator bit is
masked off (i.e. `bar4 ≤ 1`, so `bar4 & 0xfffe = 0`) or the ROM-window BAR
reads as zero, whatever the rest of the environment. -/
theorem atapromise_init_missing_bar (e : init_env)
    (h : e.bar4 ≤ 1 ∨ e.bar5 = 0) :
    (atapromise_init e).1 ≠ 0 ∧ (atapromise_init e).2 = none := by
  unfold atapromise_init
  rcases hio : e.io_perms_ok with _ | _ <;> simp [hio]
  rcases hdev : e.dev_found with _ | _ <;> simp [hdev]
  rcases h with h | h
  · have h4 : e.bar4 &&& 0xfffe = 0 := by
      interval_cases h' : e.bar4 <;> decide
    simp [h4]
  · by_cases h4 : e.bar4 &&& 0xfffe = 0 <;> simp [h4, h]

theorem atapromise_init_missing_bar_witness :
    (atapromise_init ⟨true, true, 1, 5, 0, none, true⟩).1 ≠ 0 ∧
    (atapromise_init ⟨true, true, 1, 5, 0, none, true⟩).2 = none :=
  atapromise_init_missing_bar ⟨true, true, 1, 5, 0, none, true⟩
    (Or.inl (by decide))

/-- C10: the session decode window is not probed from hardware: whenever
initialization succeeds the registered `rom_size` is 32768 bytes exactly
when the `allow32k` programmer parameter was supplied with a value whose
first character is '1', 'y' or 'Y' (per `atapromise_allow32k`), and 16384
bytes otherwise; and if `allow32k` is so enabled but the device reports a
ROM size below 32768 bytes, initialization fails with return value 1 and no
session. -/
theorem atapromise_init_decode_window :
    (∀ e, (atapromise_init e).1 = 0 →
      (atapromise_init e).2 =
        some (if atapromise_allow32k e.allow32k_param then 32768 else 16384)) ∧
    (∀ e, atapromise_allow32k e.allow32k_param = true →
      e.dev_rom_size < 32768 →
      (atapromise_init e).1 = 1 ∧ (atapromise_init e).2 = none) := by
  constructor
  · intro e h
    unfold atapromise_init at h ⊢
    by_cases hb : e.bar4 &&& 0xfffe = 0 <;> split_ifs at h ⊢ <;> simp_all
  · intro e ha hs
    unfold atapromise_init
    split_ifs <;> simp_all

theorem atapromise_init_decode_window_witness :
    (atapromise_init ⟨true, true, 3, 7, 65536, some ['y'], true⟩).2 =
      some (if atapromise_allow32k (some ['y']) then 32768 else 16384) ∧
    (atapromise_init ⟨true, true, 3, 7, 1024, some ['y'], true⟩).1 = 1 ∧
    (atapromise_init ⟨true, true, 3, 7, 1024, some ['y'], true⟩).2 = none :=
  ⟨atapromise_init_decode_window.1 ⟨true, true, 3, 7, 65536, some ['y'], true⟩
     (by decide),
   atapromise_init_decode_window.2 ⟨true, true, 3, 7, 1024, some ['y'], true⟩
     (by decide) (by decide)⟩
